/-
Verification of the CourtVision NBA prediction engine.

Shallow embedding of the core prediction pipeline:
  * `core/services/prediction_model.py`   (NBAPredictor, module-level predict_game)
  * `core/services/ml_predictor.py`       (MLPredictor)
  * `core/management/commands/load_real_data.py`
        (TeamTracker, Command.process_games_chronologically, Command._update_elo)
  * `core/management/commands/train_ml_model.py` (Command._prepare_data feature vector)

Python floats are modelled as exact reals; Python's `round` builtin (round half
to even, per the language reference) is modelled by `pythonRound`; `round(x, k)`
for k decimal digits is `pythonRound (10^k * x) / 10^k`.  Dates are modelled as
integer day numbers, so `(d2 - d1).days` is plain integer subtraction.
-/
import Mathlib

namespace CourtVision

/-- Python's builtin `round` to an integer: round half to even. -/
noncomputable def pythonRound (x : ℝ) : ℤ :=
  if Int.fract x < 1/2 then ⌊x⌋
  else if 1/2 < Int.fract x then ⌊x⌋ + 1
  else if Even ⌊x⌋ then ⌊x⌋ else ⌊x⌋ + 1

/-- Python's `round(x, 2)` (two decimal digits). -/
noncomputable def pythonRound2 (x : ℝ) : ℝ :=
  (pythonRound (100 * x) : ℝ) / 100

theorem pythonRound_intCast (n : ℤ) : pythonRound (n : ℝ) = n := by
  unfold pythonRound
  rw [Int.fract_intCast, Int.floor_intCast]
  norm_num

theorem floor_lt_int_of_fract_pos {x : ℝ} {n : ℤ} (hf : 0 < Int.fract x) (hx : x ≤ n) :
    ⌊x⌋ < n := by
  have h1 : (⌊x⌋ : ℝ) < x := by
    have := Int.floor_add_fract x
    linarith
  have : (⌊x⌋ : ℝ) < (n : ℝ) := lt_of_lt_of_le h1 hx
  exact_mod_cast this

theorem pythonRound_le_of_le_int {x : ℝ} {n : ℤ} (h : x ≤ n) : pythonRound x ≤ n := by
  have hfl : ⌊x⌋ ≤ n := by
    have := Int.floor_le_floor (α := ℝ) h
    rwa [Int.floor_intCast] at this
  unfold pythonRound
  split_ifs with h1 h2 h3
  · exact hfl
  · have : ⌊x⌋ < n := floor_lt_int_of_fract_pos (by linarith) h
    omega
  · exact hfl
  · have : ⌊x⌋ < n := floor_lt_int_of_fract_pos (by linarith [not_lt.mp h1]) h
    omega

theorem le_pythonRound_of_int_le {x : ℝ} {n : ℤ} (h : (n : ℝ) ≤ x) : n ≤ pythonRound x := by
  have hfl : n ≤ ⌊x⌋ := Int.le_floor.mpr h
  unfold pythonRound
  split_ifs <;> omega

theorem pythonRound_mono {x y : ℝ} (h : x ≤ y) : pythonRound x ≤ pythonRound y := by
  rcases lt_or_eq_of_le (Int.floor_le_floor h) with hfl | hfl
  · have h1 : pythonRound x ≤ ⌊x⌋ + 1 := by
      unfold pythonRound
      split_ifs <;> omega
    have h2 : ⌊y⌋ ≤ pythonRound y := by
      unfold pythonRound
      split_ifs <;> omega
    omega
  · have hfr : Int.fract x ≤ Int.fract y := by
      rw [Int.fract, Int.fract, hfl]
      linarith
    unfold pythonRound
    rw [hfl]
    split_ifs <;> first | omega | linarith

theorem pythonRound_add_two_mul_int (x : ℝ) (k : ℤ) :
    pythonRound (x + (2 * k : ℤ)) = pythonRound x + 2 * k := by
  have heven : Even (⌊x⌋ + 2 * k) ↔ Even ⌊x⌋ := by
    constructor
    · intro h
      have h2 := h.sub (even_two_mul k)
      simpa using h2
    · intro h
      exact h.add (even_two_mul k)
  unfold pythonRound
  rw [Int.fract_add_int, Int.floor_add_int]
  simp only [heven]
  split_ifs <;> omega

/-- If `a - b ≤ 2k` then the rounded values differ by at most `2k`
(shifting by an even integer is exact for round-half-to-even). -/
theorem pythonRound_sub_le (a b : ℝ) (k : ℤ) (h : a - b ≤ (2 * k : ℤ)) :
    pythonRound a - pythonRound b ≤ 2 * k := by
  have hab : a ≤ b + ((2 * k : ℤ) : ℝ) := by linarith
  have hm := pythonRound_mono hab
  rw [pythonRound_add_two_mul_int] at hm
  omega

/-- Complementary-sum identity: away from the half-tie, rounding `x` and
`S - x` (with `S` an integer) recovers `S` exactly. -/
theorem pythonRound_add_complement (S : ℤ) (x : ℝ) (htie : Int.fract x ≠ 1/2) :
    pythonRound x + pythonRound ((S : ℝ) - x) = S := by
  rcases eq_or_ne (Int.fract x) 0 with h0 | h0
  · have hx : x = (⌊x⌋ : ℝ) := by
      have h := Int.floor_add_fract x
      rw [h0] at h
      linarith
    rw [hx, show ((S : ℝ) - (⌊x⌋ : ℝ)) = ((S - ⌊x⌋ : ℤ) : ℝ) by push_cast; ring,
      pythonRound_intCast, pythonRound_intCast]
    ring
  · have hf0 : 0 < Int.fract x := lt_of_le_of_ne (Int.fract_nonneg x) (Ne.symm h0)
    have hf1 : Int.fract x < 1 := Int.fract_lt_one x
    have hxf : x = (⌊x⌋ : ℝ) + Int.fract x := by
      have := Int.floor_add_fract x
      linarith
    have hfbr : Int.fract ((S : ℝ) - x) = 1 - Int.fract x := by
      rw [sub_eq_add_neg, Int.fract_int_add, Int.fract_neg h0]
    have hflr : ⌊(S : ℝ) - x⌋ = S - ⌊x⌋ - 1 := by
      rw [Int.floor_eq_iff]
      constructor
      · push_cast
        linarith
      · push_cast
        linarith
    rcases lt_or_gt_of_ne htie with hlt | hgt
    · have hc1 : Int.fract ((S : ℝ) - x) ≥ 1/2 := by
        rw [hfbr]
        linarith
      have hc2 : 1/2 < Int.fract ((S : ℝ) - x) := by
        rw [hfbr]
        linarith
      unfold pythonRound
      rw [if_pos hlt, if_neg (not_lt.mpr hc1), if_pos hc2, hflr]
      ring
    · have hc1 : Int.fract ((S : ℝ) - x) < 1/2 := by
        rw [hfbr]
        linarith
      unfold pythonRound
      rw [if_neg (not_lt.mpr (le_of_lt hgt)), if_pos hgt, if_pos hc1, hflr]
      ring

/-! ### Data model

`Team` mirrors the fields of `core.models.Team` read by the prediction engine;
`GameCtx` mirrors the pre-game snapshot fields of `core.models.Game` that
`predict_game` reads (`home_rest_days`, ..., `h2h_away_wins`).  Decimal/float
fields become reals, integer fields stay integers, nullable `last_game_date`
becomes an `Option` over day numbers. -/

structure Team where
  wins : ℕ
  losses : ℕ
  efg_pct : ℝ
  tov_pct : ℝ
  orb_pct : ℝ
  ft_rate : ℝ
  opp_efg_pct : ℝ
  opp_tov_pct : ℝ
  opp_orb_pct : ℝ
  opp_ft_rate : ℝ
  offensive_rating : ℝ
  defensive_rating : ℝ
  pace : ℝ
  elo_rating : ℝ
  current_streak : ℤ
  points_trend : ℝ
  defense_trend : ℝ
  strength_of_schedule : ℝ
  avg_points_scored : ℝ
  avg_points_allowed : ℝ
  last_game_date : Option ℤ

/-- Pre-game snapshot fields of a `Game` row consumed by the predictors. -/
structure GameCtx where
  home_rest_days : ℤ
  away_rest_days : ℤ
  home_b2b : Bool
  away_b2b : Bool
  home_3in4 : Bool
  away_3in4 : Bool
  h2h_home_wins : ℕ
  h2h_away_wins : ℕ

/-- `Team.net_rating` property: offensive rating minus defensive rating. -/
def netRating (t : Team) : ℝ :=
  t.offensive_rating - t.defensive_rating

/-- Python truthiness default for a float: `x if x else d`. -/
noncomputable def pyOrReal (x d : ℝ) : ℝ :=
  if x = 0 then d else x

/-- Python truthiness default for an int: `int(x) if x else d`. -/
def pyOrInt (x d : ℤ) : ℤ :=
  if x = 0 then d else x

/-- Python `x or d` / `float(x) if x else d` for a nullable float field. -/
noncomputable def pyOptOrReal (x : Option ℝ) (d : ℝ) : ℝ :=
  match x with
  | none => d
  | some v => if v = 0 then d else v

/-! ### NBAPredictor (core/services/prediction_model.py)

Class constants: `WEIGHTS` as written in the weighted sum, `HOME_COURT_ELO_BONUS
= 100`, `HOME_COURT_POINTS = 3.5`, `B2B_PENALTY_POINTS = 1.5`,
`THREE_IN_FOUR_PENALTY = 2.0`, `REST_ADVANTAGE_PER_DAY = 0.4`,
`MAX_REST_ADVANTAGE = 2.5`, `ELO_K_FACTOR = 20`, `ELO_HOME_ADVANTAGE = 100`;
instance constants `league_avg_pace = 100`, `league_avg_ortg = league_avg_drtg
= 114`.  The `OverflowError` guard in `_logistic` returns the corresponding
limit value, which the real-valued model never reaches, so `logistic` is the
plain function. -/

/-- `NBAPredictor._logistic`. -/
noncomputable def logistic (x : ℝ) : ℝ :=
  1 / (1 + Real.exp (-x))

/-- `NBAPredictor._calc_four_factors_score`. -/
def calcFourFactorsScore (efg tov orb ftr : ℝ) : ℝ :=
  efg * 0.40 + (1 - tov) * 0.25 + orb * 0.20 + ftr * 0.15

/-- `NBAPredictor._four_factors_probability`. -/
noncomputable def fourFactorsProbability (home away : Team) : ℝ :=
  let home_off := calcFourFactorsScore home.efg_pct home.tov_pct home.orb_pct home.ft_rate
  let home_def := calcFourFactorsScore home.opp_efg_pct home.opp_tov_pct home.opp_orb_pct
    home.opp_ft_rate
  let away_off := calcFourFactorsScore away.efg_pct away.tov_pct away.orb_pct away.ft_rate
  let away_def := calcFourFactorsScore away.opp_efg_pct away.opp_tov_pct away.opp_orb_pct
    away.opp_ft_rate
  let home_advantage := (home_off - away_def) - (away_off - home_def)
  logistic (home_advantage * 5)

/-- `NBAPredictor._elo_probability`. -/
noncomputable def eloProbability (home away : Team) : ℝ :=
  let home_elo := home.elo_rating + 100
  let away_elo := away.elo_rating
  let elo_diff := home_elo - away_elo
  1 / (1 + (10 : ℝ) ^ (-elo_diff / 400))

/-- `NBAPredictor._net_rating_probability`. -/
noncomputable def netRatingProbability (home away : Team) : ℝ :=
  let net_diff := (netRating home - netRating away) + 3.5
  logistic (net_diff * 0.08)

/-- `NBAPredictor._home_court_probability`. -/
def homeCourtProbability : ℝ := 0.54

/-- `NBAPredictor._calc_rest_days`. -/
def calcRestDays (team : Team) (game_date : ℤ) : ℤ :=
  match team.last_game_date with
  | none => 3
  | some last => max 1 (min (game_date - last) 7)

/-- `NBAPredictor._schedule_probability`. -/
noncomputable def scheduleProbability (home away : Team) (game_date : ℤ)
    (game : Option GameCtx) : ℝ :=
  let data : ℤ × ℤ × Bool × Bool × Bool × Bool :=
    match game with
    | some g =>
        (g.home_rest_days, g.away_rest_days, g.home_b2b, g.away_b2b, g.home_3in4, g.away_3in4)
    | none =>
        let hr := calcRestDays home game_date
        let ar := calcRestDays away game_date
        (hr, ar, decide (hr = 1), decide (ar = 1), false, false)
  let rest_diff : ℤ := min data.1 5 - min data.2.1 5
  let adv0 : ℝ := (rest_diff : ℝ) * 0.4
  let adv1 := if data.2.2.1 then adv0 - 1.5 else adv0
  let adv2 := if data.2.2.2.1 then adv1 + 1.5 else adv1
  let adv3 := if data.2.2.2.2.1 then adv2 - 2.0 else adv2
  let adv4 := if data.2.2.2.2.2 then adv3 + 2.0 else adv3
  let adv5 := max (-(2.5 * 2)) (min (2.5 * 2) adv4)
  0.5 + adv5 * 0.025

/-- `NBAPredictor._streak_probability`. -/
noncomputable def streakProbability (home away : Team) : ℝ :=
  let home_streak := pyOrInt home.current_streak 0
  let away_streak := pyOrInt away.current_streak 0
  let home_factor := Real.tanh ((home_streak : ℝ) / 5) * 0.1
  let away_factor := Real.tanh ((away_streak : ℝ) / 5) * 0.1
  0.5 + (home_factor - away_factor)

/-- `NBAPredictor._h2h_probability`. -/
noncomputable def h2hProbability (game : Option GameCtx) : ℝ :=
  match game with
  | some g =>
      if g.h2h_home_wins ≠ 0 ∨ g.h2h_away_wins ≠ 0 then
        let total := g.h2h_home_wins + g.h2h_away_wins
        if 0 < total then
          let h2h_pct := (g.h2h_home_wins : ℝ) / (total : ℝ)
          let weight := min ((total : ℝ) / 4) 1
          0.5 + (h2h_pct - 0.5) * weight
        else 0.5
      else 0.5
  | none => 0.5

/-- `NBAPredictor._momentum_probability`. -/
noncomputable def momentumProbability (home away : Team) : ℝ :=
  let home_pts_trend := pyOrReal home.points_trend 0
  let away_pts_trend := pyOrReal away.points_trend 0
  let home_def_trend := pyOrReal home.defense_trend 0
  let away_def_trend := pyOrReal away.defense_trend 0
  let momentum_diff := (home_pts_trend - home_def_trend) - (away_pts_trend - away_def_trend)
  logistic (momentum_diff * 0.5)

/-- `NBAPredictor._sos_probability`. -/
noncomputable def sosProbability (home away : Team) : ℝ :=
  let home_sos := pyOrReal home.strength_of_schedule 0.5
  let away_sos := pyOrReal away.strength_of_schedule 0.5
  0.5 + (home_sos - away_sos) * 0.2

/-- `NBAPredictor._calculate_confidence`; `components` is the list of the nine
component probabilities in dict insertion order. -/
noncomputable def calculateConfidence (home away : Team) (home_win_prob : ℝ)
    (components : List ℝ) : ℝ :=
  let prob_distance := |home_win_prob - 0.5| * 2
  let base_confidence := 50 + prob_distance * 35
  let avg_prob := components.sum / (components.length : ℝ)
  let variance := (components.map (fun p => (p - avg_prob) ^ 2)).sum / (components.length : ℝ)
  let agreement_bonus := max 0 (12 - variance * 150)
  let elo_diff := |home.elo_rating - away.elo_rating|
  let quality_bonus := min 12 (elo_diff / 40)
  let games_played := ((home.wins : ℝ) + home.losses + away.wins + away.losses) / 2
  let data_factor := min 1 (games_played / 20)
  let confidence := (base_confidence + agreement_bonus + quality_bonus) * data_factor
  max 40 (min 92 confidence)

/-- `NBAPredictor._calculate_spread` (the `home_win_prob` and `game_date`
parameters are accepted and unused, as in the source). -/
noncomputable def calculateSpread (home away : Team) (home_win_prob : ℝ) (game_date : ℤ)
    (game : Option GameCtx) : ℝ :=
  let net_diff := netRating home - netRating away
  let avg_pace := (home.pace + away.pace) / 2
  let pace_factor := avg_pace / 100
  let spread0 := net_diff * pace_factor + 3.5
  let spread1 :=
    match game with
    | some g =>
        let s0 := if g.home_b2b then spread0 - 1.5 else spread0
        let s1 := if g.away_b2b then s0 + 1.5 else s0
        s1 + ((g.home_rest_days - g.away_rest_days : ℤ) : ℝ) * 0.4 * 0.5
    | none => spread0
  let home_streak := pyOrInt home.current_streak 0
  let away_streak := pyOrInt away.current_streak 0
  let spread2 := spread1 + ((home_streak - away_streak : ℤ) : ℝ) * 0.2
  max (-16) (min 16 spread2)

/-- `NBAPredictor._calculate_predicted_scores`: returns
`(home_score, away_score, actual_spread)` where the spread is recomputed from
the rounded, clamped scores. -/
noncomputable def calculatePredictedScores (home away : Team) (spread : ℝ)
    (game : Option GameCtx) : ℤ × ℤ × ℤ :=
  let home_ortg := pyOrReal home.offensive_rating 114
  let home_drtg := pyOrReal home.defensive_rating 114
  let away_ortg := pyOrReal away.offensive_rating 114
  let away_drtg := pyOrReal away.defensive_rating 114
  let combined_ortg := (home_ortg + away_ortg) / 2
  let combined_drtg := (home_drtg + away_drtg) / 2
  let total_adjustment := ((combined_ortg - 114) + (114 - combined_drtg)) * 0.4
  let home_pace := pyOrReal home.pace 100
  let away_pace := pyOrReal away.pace 100
  let avg_pace := (home_pace + away_pace) / 2
  let pace_adjustment := (avg_pace - 100) * 0.25
  let pt0 := 227.0 + total_adjustment + pace_adjustment
  let pt1 :=
    match game with
    | some g =>
        let t0 := if g.home_b2b then pt0 - 2.0 else pt0
        let t1 := if g.away_b2b then t0 - 2.0 else t0
        let t2 := if g.home_3in4 then t1 - 1.5 else t1
        if g.away_3in4 then t2 - 1.5 else t2
    | none => pt0
  let predicted_total := max 215 (min 240 pt1)
  let half_total := predicted_total / 2
  let home_score0 := pythonRound (half_total + spread / 2)
  let away_score0 := pythonRound (half_total - spread / 2)
  let home_score := max 95 (min 130 home_score0)
  let away_score := max 95 (min 130 away_score0)
  (home_score, away_score, home_score - away_score)

/-- Result 5-tuple of a prediction:
`(home win probability %, confidence, spread, home score, away score)`. -/
structure PredOut where
  prob : ℝ
  conf : ℝ
  spread : ℝ
  homeScore : ℤ
  awayScore : ℤ

/-- `NBAPredictor.predict_game`. -/
noncomputable def nbaPredictGame (home away : Team) (game_date : ℤ)
    (game : Option GameCtx) : PredOut :=
  let c_ff := fourFactorsProbability home away
  let c_elo := eloProbability home away
  let c_net := netRatingProbability home away
  let c_hc := homeCourtProbability
  let c_sched := scheduleProbability home away game_date game
  let c_streaks := streakProbability home away
  let c_h2h := h2hProbability game
  let c_mom := momentumProbability home away
  let c_sos := sosProbability home away
  let components := [c_ff, c_elo, c_net, c_hc, c_sched, c_streaks, c_h2h, c_mom, c_sos]
  let raw_prob := c_ff * 0.30 + c_elo * 0.20 + c_net * 0.15 + c_hc * 0.08 +
    c_sched * 0.07 + c_streaks * 0.05 + c_h2h * 0.05 + c_mom * 0.05 + c_sos * 0.05
  let home_win_prob := max 0.15 (min 0.85 raw_prob)
  let confidence := calculateConfidence home away home_win_prob components
  let spread := calculateSpread home away home_win_prob game_date game
  let scores := calculatePredictedScores home away spread game
  { prob := pythonRound2 (home_win_prob * 100)
    conf := pythonRound2 confidence
    spread := (scores.2.2 : ℝ)
    homeScore := scores.1
    awayScore := scores.2.1 }

/-- Margin-of-victory multiplier of `update_elo_after_game` (lines 509–510):
`log(max(margin,1)+1)` damped by the adjusted rating gap, clamped to
`[1.0, 2.5]`. -/
noncomputable def movMultiplier (winner_elo loser_elo : ℝ) (margin : ℤ) : ℝ :=
  let mov_raw := Real.log ((max (margin : ℝ) 1) + 1) *
    (2.2 / ((winner_elo - loser_elo) * 0.001 + 2.2))
  max 1.0 (min mov_raw 2.5)

/-- `NBAPredictor.update_elo_after_game`: the unrounded change applied to both
ratings.  `winnerIsHome` is the source's `winner == home_team` test. -/
noncomputable def eloChangeAfterGame (winner loser : Team) (winnerIsHome : Bool)
    (margin : ℤ) : ℝ :=
  let winner_elo := if winnerIsHome then winner.elo_rating + 100 else winner.elo_rating
  let loser_elo := if winnerIsHome then loser.elo_rating else loser.elo_rating + 100
  let expected := 1 / (1 + (10 : ℝ) ^ ((loser_elo - winner_elo) / 400))
  20 * movMultiplier winner_elo loser_elo margin * (1 - expected)

/-- `NBAPredictor.update_elo_after_game`: returns the elo change and the two
mutated team rows (each new rating rounded to one decimal). -/
noncomputable def updateEloAfterGame (winner loser : Team) (winnerIsHome : Bool)
    (margin : ℤ) : ℝ × Team × Team :=
  let elo_change := eloChangeAfterGame winner loser winnerIsHome margin
  (elo_change,
   { winner with elo_rating := (pythonRound (10 * (winner.elo_rating + elo_change)) : ℝ) / 10 },
   { loser with elo_rating := (pythonRound (10 * (loser.elo_rating - elo_change)) : ℝ) / 10 })

/-- State-passing form of `NBAPredictor.predict_game`: the method body contains
no attribute assignment, so the team rows and snapshot pass through unchanged. -/
noncomputable def nbaPredictGameS (home away : Team) (game_date : ℤ)
    (game : Option GameCtx) : PredOut × Team × Team × Option GameCtx :=
  (nbaPredictGame home away game_date game, home, away, game)

/-! ### MLPredictor (core/services/ml_predictor.py)

The persisted regressors and scaler are external artifacts loaded from disk;
their raw outputs on the scaled feature row are the two reals
`(spreadRaw, totalRaw)`.  `MLRaw = none` models every unavailability condition:
`joblib` missing, artifact files missing or corrupt (`models_loaded = False`),
`_prepare_features` returning `None`, or an exception escaping the ML path
(caught by the caller's `except`). -/

/-- Raw outputs of the loaded spread/total regressors on one feature row. -/
structure MLRaw where
  spreadRaw : ℝ
  totalRaw : ℝ

/-- Result of `MLPredictor.predict`:
`(actual_spread, actual_total, home_score, away_score)`. -/
structure MLResult where
  spread : ℝ
  total : ℝ
  homeScore : ℤ
  awayScore : ℤ

/-- Post-regression part of `MLPredictor.predict` (lines 92–114): clamp the
spread, split the total, round and clamp the scores, then recompute spread and
total from the rounded scores. -/
noncomputable def mlPredictCore (raw : MLRaw) : MLResult :=
  let spread := max (-16) (min 16 raw.spreadRaw)
  let half_total := raw.totalRaw / 2
  let home_score0 := pythonRound (half_total + spread / 2)
  let away_score0 := pythonRound (half_total - spread / 2)
  let home_score := max 95 (min 135 home_score0)
  let away_score := max 95 (min 135 away_score0)
  { spread := ((home_score - away_score : ℤ) : ℝ)
    total := ((home_score + away_score : ℤ) : ℝ)
    homeScore := home_score
    awayScore := away_score }

/-- `MLPredictor.calculate_win_probability`. -/
noncomputable def mlWinProbability (spread : ℝ) : ℝ :=
  let prob := 1 / (1 + Real.exp (-spread / 4.5))
  pythonRound2 (prob * 100)

/-- `MLPredictor.calculate_confidence`. -/
noncomputable def mlConfidence (spread : ℝ) (home away : Team) : ℝ :=
  let spread_confidence := min (|spread| * 2 + 40) 85
  let home_games := home.wins + home.losses
  let away_games := away.wins + away.losses
  let games_factor := min (((home_games + away_games : ℕ) : ℝ) / 40) 1
  let confidence := spread_confidence * games_factor
  pythonRound2 (max 40 (min 90 confidence))

/-- Module-level `predict_game` (prediction_model.py lines 520–558): try the ML
model when requested and available, otherwise fall back to `NBAPredictor`. -/
noncomputable def predictGameTop (use_ml : Bool) (ml : Option MLRaw) (home away : Team)
    (game_date : ℤ) (game : Option GameCtx) : PredOut :=
  match use_ml, ml with
  | true, some raw =>
      let result := mlPredictCore raw
      { prob := mlWinProbability result.spread
        conf := mlConfidence result.spread home away
        spread := result.spread
        homeScore := result.homeScore
        awayScore := result.awayScore }
  | _, _ => nbaPredictGame home away game_date game

/-- Components of the returned 5-tuple, in order (scores cast to ℝ so the tuple
is homogeneous, matching Python's untyped tuple). -/
noncomputable def predOutList (p : PredOut) : List ℝ :=
  [p.prob, p.conf, p.spread, (p.homeScore : ℝ), (p.awayScore : ℝ)]

/-- Python tuple unpacking `a, b, c = t`: succeeds only when `t` has exactly
three items, otherwise raises `ValueError` (modelled as `none`). -/
def unpackThree (t : List ℝ) : Option (ℝ × ℝ × ℝ) :=
  match t with
  | [a, b, c] => some (a, b, c)
  | _ => none

/-! ### TeamTracker (load_real_data.py lines 65–226)

Fields as in `__init__`; dates are integer day numbers; the opponent win
percentages recorded for strength-of-schedule are rationals (`wins / games`);
the Elo rating is a real (its update formula uses `**`). -/

structure TeamTracker where
  wins : ℕ
  losses : ℕ
  points_scored : ℕ
  points_allowed : ℕ
  home_wins : ℕ
  home_losses : ℕ
  away_wins : ℕ
  away_losses : ℕ
  current_streak : ℤ
  home_streak : ℤ
  away_streak : ℤ
  last_10_results : List ℕ
  last_game_date : Option ℤ
  game_dates : List ℤ
  opponents : List ℚ
  opponent_elos : List ℝ
  recent_scores : List ℕ
  recent_allowed : List ℕ
  vs_above_500_wins : ℕ
  vs_above_500_losses : ℕ
  vs_below_500_wins : ℕ
  vs_below_500_losses : ℕ
  elo : ℝ

/-- `TeamTracker.__init__`. -/
def initTracker : TeamTracker where
  wins := 0
  losses := 0
  points_scored := 0
  points_allowed := 0
  home_wins := 0
  home_losses := 0
  away_wins := 0
  away_losses := 0
  current_streak := 0
  home_streak := 0
  away_streak := 0
  last_10_results := []
  last_game_date := none
  game_dates := []
  opponents := []
  opponent_elos := []
  recent_scores := []
  recent_allowed := []
  vs_above_500_wins := 0
  vs_above_500_losses := 0
  vs_below_500_wins := 0
  vs_below_500_losses := 0
  elo := 1500

/-- `TeamTracker.games_played`. -/
def TeamTracker.gamesPlayed (t : TeamTracker) : ℕ :=
  t.wins + t.losses

/-- `TeamTracker.win_pct`. -/
def TeamTracker.winPct (t : TeamTracker) : ℚ :=
  if t.gamesPlayed = 0 then 1/2 else (t.wins : ℚ) / (t.gamesPlayed : ℚ)

/-- `TeamTracker.is_b2b`. -/
def TeamTracker.isB2b (t : TeamTracker) (game_date : ℤ) : Bool :=
  match t.last_game_date with
  | none => false
  | some last => decide (game_date - last = 1)

/-- `TeamTracker.is_3in4`. -/
def TeamTracker.is3in4 (t : TeamTracker) (game_date : ℤ) : Bool :=
  if t.game_dates.length < 2 then false
  else
    let four_days_ago := game_date - 3
    decide (2 ≤ (t.game_dates.filter (fun d => four_days_ago ≤ d)).length)

/-- `TeamTracker.rest_days`: floored at 1, with no upper cap. -/
def TeamTracker.restDays (t : TeamTracker) (game_date : ℤ) : ℤ :=
  match t.last_game_date with
  | none => 3
  | some last => max 1 (game_date - last)

/-- `TeamTracker.strength_of_schedule`. -/
def TeamTracker.strengthOfSchedule (t : TeamTracker) : ℚ :=
  if t.opponents = [] then 1/2 else t.opponents.sum / (t.opponents.length : ℚ)

/-- `TeamTracker.points_trend`: second-half mean minus first-half mean of the
recent scored points, `0` below five games. -/
def TeamTracker.pointsTrend (t : TeamTracker) : ℚ :=
  if t.recent_scores.length < 5 then 0
  else
    let first_half := t.recent_scores.take (t.recent_scores.length / 2)
    let second_half := t.recent_scores.drop (t.recent_scores.length / 2)
    ((second_half.sum : ℚ) / (second_half.length : ℚ)) -
      ((first_half.sum : ℚ) / (first_half.length : ℚ))

/-- `TeamTracker.defense_trend`. -/
def TeamTracker.defenseTrend (t : TeamTracker) : ℚ :=
  if t.recent_allowed.length < 5 then 0
  else
    let first_half := t.recent_allowed.take (t.recent_allowed.length / 2)
    let second_half := t.recent_allowed.drop (t.recent_allowed.length / 2)
    ((second_half.sum : ℚ) / (second_half.length : ℚ)) -
      ((first_half.sum : ℚ) / (first_half.length : ℚ))

/-- Append to a Python list then `pop(0)` when the bound is exceeded. -/
def pushBounded (l : List ℕ) (x : ℕ) (bound : ℕ) : List ℕ :=
  let l2 := l ++ [x]
  if bound < l2.length then l2.tail else l2

/-- Variant of `pushBounded` for date lists. -/
def pushBoundedInt (l : List ℤ) (x : ℤ) (bound : ℕ) : List ℤ :=
  let l2 := l ++ [x]
  if bound < l2.length then l2.tail else l2

/-- `TeamTracker.update_after_game`. -/
def TeamTracker.updateAfterGame (t : TeamTracker) (game_date : ℤ)
    (points_for points_against : ℕ) (is_home won : Bool)
    (opponent_win_pct : ℚ) (opponent_elo : ℝ) : TeamTracker :=
  let rec_pair :=
    let s2 := t.recent_scores ++ [points_for]
    let a2 := t.recent_allowed ++ [points_against]
    if 10 < s2.length then (s2.tail, a2.tail) else (s2, a2)
  { t with
    wins := if won then t.wins + 1 else t.wins
    losses := if won then t.losses else t.losses + 1
    home_wins := if won && is_home then t.home_wins + 1 else t.home_wins
    home_losses := if !won && is_home then t.home_losses + 1 else t.home_losses
    away_wins := if won && !is_home then t.away_wins + 1 else t.away_wins
    away_losses := if !won && !is_home then t.away_losses + 1 else t.away_losses
    points_scored := t.points_scored + points_for
    points_allowed := t.points_allowed + points_against
    current_streak :=
      if won then (if 0 < t.current_streak then t.current_streak + 1 else 1)
      else (if t.current_streak < 0 then t.current_streak - 1 else -1)
    home_streak :=
      if is_home then
        (if won then (if 0 < t.home_streak then t.home_streak + 1 else 1)
         else (if t.home_streak < 0 then t.home_streak - 1 else -1))
      else t.home_streak
    away_streak :=
      if !is_home then
        (if won then (if 0 < t.away_streak then t.away_streak + 1 else 1)
         else (if t.away_streak < 0 then t.away_streak - 1 else -1))
      else t.away_streak
    last_10_results := pushBounded t.last_10_results (if won then 1 else 0) 10
    recent_scores := rec_pair.1
    recent_allowed := rec_pair.2
    last_game_date := some game_date
    game_dates := pushBoundedInt t.game_dates game_date 7
    opponents := t.opponents ++ [opponent_win_pct]
    opponent_elos := t.opponent_elos ++ [opponent_elo]
    vs_above_500_wins :=
      if 1/2 ≤ opponent_win_pct ∧ won = true then t.vs_above_500_wins + 1
      else t.vs_above_500_wins
    vs_above_500_losses :=
      if 1/2 ≤ opponent_win_pct ∧ won = false then t.vs_above_500_losses + 1
      else t.vs_above_500_losses
    vs_below_500_wins :=
      if opponent_win_pct < 1/2 ∧ won = true then t.vs_below_500_wins + 1
      else t.vs_below_500_wins
    vs_below_500_losses :=
      if opponent_win_pct < 1/2 ∧ won = false then t.vs_below_500_losses + 1
      else t.vs_below_500_losses }

/-! ### Command._update_elo (load_real_data.py lines 473–492)

`K = 20`, `home_advantage = 100`, margin-of-victory multiplier
`min(2.5, max(1.0, (margin + 3) ** 0.8 / 20))`; the change is applied exactly
(`+=` / `-=`), with no rounding. -/

/-- Elo change computed by `Command._update_elo`. -/
noncomputable def commandEloChange (winnerElo loserElo : ℝ) (winnerIsHome : Bool)
    (margin : ℕ) : ℝ :=
  let winner_elo := if winnerIsHome then winnerElo + 100 else winnerElo
  let loser_elo := if winnerIsHome then loserElo else loserElo + 100
  let expected := 1 / (1 + (10 : ℝ) ^ ((loser_elo - winner_elo) / 400))
  let mov_mult := min 2.5 (max 1.0 (((margin : ℝ) + 3) ^ (0.8 : ℝ) / 20))
  20 * mov_mult * (1 - expected)

/-- `Command._update_elo`: returns the change and both mutated trackers. -/
noncomputable def commandUpdateElo (winner loser : TeamTracker) (winnerIsHome : Bool)
    (margin : ℕ) : ℝ × TeamTracker × TeamTracker :=
  let elo_change := commandEloChange winner.elo loser.elo winnerIsHome margin
  (elo_change,
   { winner with elo := winner.elo + elo_change },
   { loser with elo := loser.elo - elo_change })

/-! ### Command.process_games_chronologically (load_real_data.py lines 300–411)

Completed-games loop.  An API game record carries team abbreviations, a date,
the final scores (`.get(..., 0)` defaults folded into the fields) and the
completion status.  The head-to-head store is a `defaultdict` keyed by the
alphabetically sorted team pair; the `Game.objects.update_or_create` rows are
kept as a keyed list.  Crucially, the source binds `h2h = h2h_records[h2h_key]`
to the live dict, increments it after the tracker/Elo updates, and only then
writes the `Game` row from that same dict, so the stored tallies are read
post-increment. -/

structure ApiGame where
  home_abbrev : String
  away_abbrev : String
  date : ℤ
  home_score : ℕ
  away_score : ℕ
  isFinal : Bool

/-- Fields of the `Game` row written by the completed-games loop. -/
structure SavedGame where
  date : ℤ
  home_abbrev : String
  away_abbrev : String
  home_score : ℕ
  away_score : ℕ
  home_rest_days : ℤ
  away_rest_days : ℤ
  home_b2b : Bool
  away_b2b : Bool
  home_3in4 : Bool
  away_3in4 : Bool
  home_elo_pre : ℝ
  away_elo_pre : ℝ
  home_streak_pre : ℤ
  away_streak_pre : ℤ
  h2h_home_wins : ℕ
  h2h_away_wins : ℕ

structure PassState where
  trackers : List (String × TeamTracker)
  h2h : List ((String × String) × (ℕ × ℕ))
  saved : List SavedGame

/-- Store a value under a key in an association list (overwrite or append). -/
def upsert {α : Type} (l : List (String × α)) (k : String) (v : α) : List (String × α) :=
  match l with
  | [] => [(k, v)]
  | (k', v') :: rest => if k' = k then (k, v) :: rest else (k', v') :: upsert rest k v

/-- `defaultdict` read for the head-to-head store. -/
def h2hGet (l : List ((String × String) × (ℕ × ℕ))) (k : String × String) : ℕ × ℕ :=
  match l.lookup k with
  | some v => v
  | none => (0, 0)

/-- Store into the head-to-head store. -/
def h2hPut (l : List ((String × String) × (ℕ × ℕ))) (k : String × String) (v : ℕ × ℕ) :
    List ((String × String) × (ℕ × ℕ)) :=
  match l with
  | [] => [(k, v)]
  | (k', v') :: rest => if k' = k then (k, v) :: rest else (k', v') :: h2hPut rest k v

/-- Lexicographic comparison of character lists by code point. -/
def charListLt : List Char → List Char → Bool
  | [], [] => false
  | [], _ :: _ => true
  | _ :: _, [] => false
  | a :: as, b :: bs =>
      if a.toNat < b.toNat then true
      else if b.toNat < a.toNat then false
      else charListLt as bs

/-- Python's `<` on strings (lexicographic by code point). -/
def strLt (a b : String) : Bool :=
  charListLt a.data b.data

/-- `tuple(sorted([home_abbrev, away_abbrev]))`. -/
def h2hKey (home away : String) : String × String :=
  if strLt away home then (away, home) else (home, away)

/-- `Game.objects.update_or_create` keyed on `(date, home_team, away_team)`. -/
def saveGame (l : List SavedGame) (g : SavedGame) : List SavedGame :=
  match l with
  | [] => [g]
  | g' :: rest =>
      if g'.date = g.date ∧ g'.home_abbrev = g.home_abbrev ∧ g'.away_abbrev = g.away_abbrev
      then g :: rest
      else g' :: saveGame rest g

/-- One iteration of the completed-games loop (lines 318–410): capture the
pre-game state, update both trackers (the away update reads the home tracker's
already-updated win percentage, as the source does), update Elo, increment the
head-to-head tally, then write the `Game` row reading the tallies from the
incremented dict. -/
noncomputable def completedStep (st : PassState) (g : ApiGame) : PassState :=
  match st.trackers.lookup g.home_abbrev, st.trackers.lookup g.away_abbrev with
  | some home_tracker, some away_tracker =>
      let pre_home_elo := home_tracker.elo
      let pre_away_elo := away_tracker.elo
      let pre_home_streak := home_tracker.current_streak
      let pre_away_streak := away_tracker.current_streak
      let pre_home_rest := home_tracker.restDays g.date
      let pre_away_rest := away_tracker.restDays g.date
      let pre_home_b2b := home_tracker.isB2b g.date
      let pre_away_b2b := away_tracker.isB2b g.date
      let pre_home_3in4 := home_tracker.is3in4 g.date
      let pre_away_3in4 := away_tracker.is3in4 g.date
      let key := h2hKey g.home_abbrev g.away_abbrev
      let home_won := decide (g.away_score < g.home_score)
      let ht1 := home_tracker.updateAfterGame g.date g.home_score g.away_score true home_won
        away_tracker.winPct away_tracker.elo
      let at1 := away_tracker.updateAfterGame g.date g.away_score g.home_score false (!home_won)
        ht1.winPct ht1.elo
      let margin := ((g.home_score : ℤ) - (g.away_score : ℤ)).natAbs
      let pair :=
        if home_won then
          let r := commandUpdateElo ht1 at1 true margin
          (r.2.1, r.2.2)
        else
          let r := commandUpdateElo at1 ht1 false margin
          (r.2.2, r.2.1)
      let tally := h2hGet st.h2h key
      let tally2 :=
        if home_won then
          (if g.home_abbrev = key.1 then (tally.1 + 1, tally.2) else (tally.1, tally.2 + 1))
        else
          (if g.away_abbrev = key.1 then (tally.1 + 1, tally.2) else (tally.1, tally.2 + 1))
      let row : SavedGame :=
        { date := g.date
          home_abbrev := g.home_abbrev
          away_abbrev := g.away_abbrev
          home_score := g.home_score
          away_score := g.away_score
          home_rest_days := pre_home_rest
          away_rest_days := pre_away_rest
          home_b2b := pre_home_b2b
          away_b2b := pre_away_b2b
          home_3in4 := pre_home_3in4
          away_3in4 := pre_away_3in4
          home_elo_pre := (pythonRound (10 * pre_home_elo) : ℝ) / 10
          away_elo_pre := (pythonRound (10 * pre_away_elo) : ℝ) / 10
          home_streak_pre := pre_home_streak
          away_streak_pre := pre_away_streak
          h2h_home_wins := if g.home_abbrev = key.1 then tally2.1 else tally2.2
          h2h_away_wins := if g.home_abbrev = key.1 then tally2.2 else tally2.1 }
      { trackers := upsert (upsert st.trackers g.home_abbrev pair.1) g.away_abbrev pair.2
        h2h := h2hPut st.h2h key tally2
        saved := saveGame st.saved row }
  | _, _ => st

/-- Stable ascending insertion of a game into a date-sorted list. -/
def insertByDate (g : ApiGame) : List ApiGame → List ApiGame
  | [] => [g]
  | g' :: rest => if g.date < g'.date then g :: g' :: rest else g' :: insertByDate g rest

/-- `sorted(all_games, key=lambda x: x['date'])` (stable). -/
def sortByDate (games : List ApiGame) : List ApiGame :=
  games.foldl (fun acc g => insertByDate g acc) []

/-- Completed-games portion of `Command.process_games_chronologically`: one
tracker per known team, then a fold of `completedStep` over the completed games
in date order. -/
noncomputable def processCompletedGames (teams : List String) (games : List ApiGame) :
    PassState :=
  let init : PassState := { trackers := teams.map (fun a => (a, initTracker)), h2h := [], saved := [] }
  (((sortByDate games).filter (fun g => g.isFinal)).foldl completedStep init)

/-! ### Feature vectors (train_ml_model.py / ml_predictor.py)

`Command._prepare_data` builds the training matrix from `HistoricalGame` rows
(the query filters out rows with null win percentages or null `ppg_l10`, so
those four fields are plain reals here; the two `papg_l10` fields stay
nullable).  `MLPredictor._prepare_features` rebuilds a 21-entry vector from the
live `Team` rows plus the optional `Game` snapshot. -/

structure HistoricalGameRow where
  home_win_pct : ℝ
  away_win_pct : ℝ
  home_ppg_l10 : ℝ
  away_ppg_l10 : ℝ
  home_papg_l10 : Option ℝ
  away_papg_l10 : Option ℝ
  home_streak : ℤ
  away_streak : ℤ
  home_rest_days : ℤ
  away_rest_days : ℤ
  home_home_wins : ℕ
  home_home_losses : ℕ
  away_away_wins : ℕ
  away_away_losses : ℕ
  h2h_home_wins : ℕ
  h2h_away_wins : ℕ

/-- Feature row built by `Command._prepare_data` (lines 119–160). -/
noncomputable def trainFeatures (g : HistoricalGameRow) : List ℝ :=
  [g.home_win_pct,
   g.away_win_pct,
   g.home_win_pct - g.away_win_pct,
   g.home_ppg_l10,
   g.away_ppg_l10,
   g.home_ppg_l10 - g.away_ppg_l10,
   pyOptOrReal g.home_papg_l10 110,
   pyOptOrReal g.away_papg_l10 110,
   g.home_ppg_l10 - pyOptOrReal g.home_papg_l10 110,
   g.away_ppg_l10 - pyOptOrReal g.away_papg_l10 110,
   (g.home_streak : ℝ),
   (g.away_streak : ℝ),
   ((g.home_streak - g.away_streak : ℤ) : ℝ),
   (g.home_rest_days : ℝ),
   (g.away_rest_days : ℝ),
   ((g.home_rest_days - g.away_rest_days : ℤ) : ℝ),
   (g.home_home_wins : ℝ) / ((max (g.home_home_wins + g.home_home_losses) 1 : ℕ) : ℝ),
   (g.away_away_wins : ℝ) / ((max (g.away_away_wins + g.away_away_losses) 1 : ℕ) : ℝ),
   (if 0 < g.h2h_home_wins + g.h2h_away_wins then
      (g.h2h_home_wins : ℝ) / ((max (g.h2h_home_wins + g.h2h_away_wins) 1 : ℕ) : ℝ)
    else 0.5),
   (g.home_ppg_l10 + g.away_ppg_l10) / 2,
   (pyOptOrReal g.home_papg_l10 110 + pyOptOrReal g.away_papg_l10 110) / 2]

/-- Feature row built by `MLPredictor._prepare_features` (lines 116–191). -/
noncomputable def inferFeatures (home away : Team) (game : Option GameCtx) : List ℝ :=
  let home_games := home.wins + home.losses
  let away_games := away.wins + away.losses
  let home_win_pct : ℝ := if 0 < home_games then (home.wins : ℝ) / (home_games : ℝ) else 0.5
  let away_win_pct : ℝ := if 0 < away_games then (away.wins : ℝ) / (away_games : ℝ) else 0.5
  let home_ppg := pyOrReal home.avg_points_scored 110
  let away_ppg := pyOrReal away.avg_points_scored 110
  let home_papg := pyOrReal home.avg_points_allowed 110
  let away_papg := pyOrReal away.avg_points_allowed 110
  let home_net := home_ppg - home_papg
  let away_net := away_ppg - away_papg
  let home_streak := pyOrInt home.current_streak 0
  let away_streak := pyOrInt away.current_streak 0
  let rest : ℤ × ℤ :=
    match game with
    | some g => (g.home_rest_days, g.away_rest_days)
    | none => (2, 2)
  let home_home_win_pct := home_win_pct
  let away_away_win_pct := away_win_pct
  let h2h_home_pct : ℝ :=
    match game with
    | some g =>
        if 0 < g.h2h_home_wins + g.h2h_away_wins then
          (g.h2h_home_wins : ℝ) / ((g.h2h_home_wins + g.h2h_away_wins : ℕ) : ℝ)
        else 0.5
    | none => 0.5
  [home_win_pct,
   away_win_pct,
   home_win_pct - away_win_pct,
   home_ppg,
   away_ppg,
   home_ppg - away_ppg,
   home_papg,
   away_papg,
   home_net,
   away_net,
   (home_streak : ℝ),
   (away_streak : ℝ),
   ((home_streak - away_streak : ℤ) : ℝ),
   (rest.1 : ℝ),
   (rest.2 : ℝ),
   ((rest.1 - rest.2 : ℤ) : ℝ),
   home_home_win_pct,
   away_away_win_pct,
   h2h_home_pct,
   (home_ppg + away_ppg) / 2,
   (home_papg + away_papg) / 2]

/-- The `HistoricalGame` row whose training features coincide with what
`MLPredictor._prepare_features` actually computes at inference time: season
averages stand in for the trailing-10 figures, the overall record stands in
for the home-at-home / away-on-road records (a `(1,1)` pseudo-record realises
the 0.5 default of a zero-game team), and the snapshot supplies rest and
head-to-head. -/
noncomputable def proxyRow (home away : Team) (game : Option GameCtx) : HistoricalGameRow where
  home_win_pct :=
    if 0 < home.wins + home.losses then (home.wins : ℝ) / ((home.wins + home.losses : ℕ) : ℝ)
    else 0.5
  away_win_pct :=
    if 0 < away.wins + away.losses then (away.wins : ℝ) / ((away.wins + away.losses : ℕ) : ℝ)
    else 0.5
  home_ppg_l10 := pyOrReal home.avg_points_scored 110
  away_ppg_l10 := pyOrReal away.avg_points_scored 110
  home_papg_l10 := some (pyOrReal home.avg_points_allowed 110)
  away_papg_l10 := some (pyOrReal away.avg_points_allowed 110)
  home_streak := pyOrInt home.current_streak 0
  away_streak := pyOrInt away.current_streak 0
  home_rest_days := match game with | some g => g.home_rest_days | none => 2
  away_rest_days := match game with | some g => g.away_rest_days | none => 2
  home_home_wins := if home.wins + home.losses = 0 then 1 else home.wins
  home_home_losses := if home.wins + home.losses = 0 then 1 else home.losses
  away_away_wins := if away.wins + away.losses = 0 then 1 else away.wins
  away_away_losses := if away.wins + away.losses = 0 then 1 else away.losses
  h2h_home_wins := match game with | some g => g.h2h_home_wins | none => 0
  h2h_away_wins := match game with | some g => g.h2h_away_wins | none => 0

/-! ### Demo data used by witnesses and counterexamples -/

/-- Concrete strong team (10–2, Elo 1600). -/
def demoTeamA : Team where
  wins := 10
  losses := 2
  efg_pct := 0.55
  tov_pct := 0.12
  orb_pct := 0.27
  ft_rate := 0.26
  opp_efg_pct := 0.52
  opp_tov_pct := 0.14
  opp_orb_pct := 0.24
  opp_ft_rate := 0.24
  offensive_rating := 118
  defensive_rating := 108
  pace := 100
  elo_rating := 1600
  current_streak := 3
  points_trend := 1.5
  defense_trend := -1
  strength_of_schedule := 0.52
  avg_points_scored := 118
  avg_points_allowed := 108
  last_game_date := some (-2)

/-- Concrete weak team (4–8, Elo 1500). -/
def demoTeamB : Team where
  wins := 4
  losses := 8
  efg_pct := 0.50
  tov_pct := 0.14
  orb_pct := 0.24
  ft_rate := 0.24
  opp_efg_pct := 0.55
  opp_tov_pct := 0.12
  opp_orb_pct := 0.26
  opp_ft_rate := 0.26
  offensive_rating := 108
  defensive_rating := 116
  pace := 100
  elo_rating := 1500
  current_streak := -2
  points_trend := -0.5
  defense_trend := 1
  strength_of_schedule := 0.5
  avg_points_scored := 108
  avg_points_allowed := 116
  last_game_date := none

/-- Snapshot row for the demo matchup. -/
def demoGameCtx : GameCtx where
  home_rest_days := 2
  away_rest_days := 1
  home_b2b := false
  away_b2b := true
  home_3in4 := false
  away_3in4 := false
  h2h_home_wins := 0
  h2h_away_wins := 0

/-- One completed game: BOS beats ATL 100–90 at home on day 0. -/
def demoApiGame : ApiGame where
  home_abbrev := "BOS"
  away_abbrev := "ATL"
  date := 0
  home_score := 100
  away_score := 90
  isFinal := true

/-- Home side of the C9 scenario: 2–2 overall, with both wins at home (true
home record 2–0). -/
def mlTeamHome : Team where
  wins := 2
  losses := 2
  efg_pct := 0.50
  tov_pct := 0.13
  orb_pct := 0.25
  ft_rate := 0.25
  opp_efg_pct := 0.54
  opp_tov_pct := 0.13
  opp_orb_pct := 0.25
  opp_ft_rate := 0.25
  offensive_rating := 110
  defensive_rating := 108
  pace := 100
  elo_rating := 1520
  current_streak := 1
  points_trend := 0
  defense_trend := 0
  strength_of_schedule := 0.5
  avg_points_scored := 110
  avg_points_allowed := 108
  last_game_date := some (-2)

/-- Away side of the C9 scenario: 2–2 overall, road record 1–1. -/
def mlTeamAway : Team where
  wins := 2
  losses := 2
  efg_pct := 0.50
  tov_pct := 0.13
  orb_pct := 0.25
  ft_rate := 0.25
  opp_efg_pct := 0.54
  opp_tov_pct := 0.13
  opp_orb_pct := 0.25
  opp_ft_rate := 0.25
  offensive_rating := 108
  defensive_rating := 110
  pace := 100
  elo_rating := 1480
  current_streak := -1
  points_trend := 0
  defense_trend := 0
  strength_of_schedule := 0.5
  avg_points_scored := 108
  avg_points_allowed := 110
  last_game_date := some (-2)

/-- Snapshot of the C9 scenario's upcoming game. -/
def mlGameDemo : GameCtx where
  home_rest_days := 2
  away_rest_days := 2
  home_b2b := false
  away_b2b := false
  home_3in4 := false
  away_3in4 := false
  h2h_home_wins := 0
  h2h_away_wins := 0

/-- The `HistoricalGame` training row the pipeline stores for the C9
scenario's game: identical pre-game facts, with the true home-at-home record
2–0 and road record 1–1. -/
noncomputable def hgDemo : HistoricalGameRow where
  home_win_pct := 1/2
  away_win_pct := 1/2
  home_ppg_l10 := 110
  away_ppg_l10 := 108
  home_papg_l10 := some 108
  away_papg_l10 := some 110
  home_streak := 1
  away_streak := -1
  home_rest_days := 2
  away_rest_days := 2
  home_home_wins := 2
  home_home_losses := 0
  away_away_wins := 1
  away_away_losses := 1
  h2h_home_wins := 0
  h2h_away_wins := 0

/-! ### Claims -/

/-- C1.  Data-leakage bug in the Chronological Feature Builder: processing the
single completed game `demoApiGame` (BOS beats ATL 100–90, no earlier games)
stores `h2h_home_wins = 1` on that game's row.  A pre-game snapshot that is a
function of strictly earlier games only would store `0`, as the empty prefix
shows (second conjunct): the loop binds the live head-to-head dict, increments
it for this game's winner, and only afterwards writes the `Game` row from the
same dict (load_real_data.py lines 347, 370–380, 405–406), so the stored
head-to-head tally includes the game's own result — contradicting the file's
own "Data Leakage Prevention" docstring and the pre-update write order used by
`fetch_historical_data._calculate_features`. -/
theorem C1_h2h_snapshot_includes_own_game :
    ((processCompletedGames ["ATL", "BOS"] [demoApiGame]).saved.map
        SavedGame.h2h_home_wins) = [1] ∧
    h2hGet (processCompletedGames ["ATL", "BOS"] []).h2h (h2hKey "BOS" "ATL") = (0, 0) :=
  ⟨rfl, rfl⟩

/-- C2.  The Feature Builder's scheduled-game step unpacks the result of
`predict_game` into exactly three names (`home_prob, confidence, spread =
predict_game(...)`, load_real_data.py line 464), but `predict_game` always
returns a 5-tuple — on both the ML branch and the heuristic fallback — so the
unpacking raises `ValueError` for every scheduled game instead of completing
and writing the prediction fields.  (`sync_nba_data`'s caller at
nba_api.py line 176 unpacks the same function into five names.) -/
theorem C2_scheduled_prediction_unpack_fails (use_ml : Bool) (ml : Option MLRaw)
    (home away : Team) (game_date : ℤ) (game : Option GameCtx) :
    unpackThree (predOutList (predictGameTop use_ml ml home away game_date game)) = none := by
  rfl

/-- Rounding to two decimals keeps a value inside integer bounds. -/
theorem pythonRound2_mem_Icc (lo hi : ℤ) {x : ℝ} (h1 : (lo : ℝ) ≤ x) (h2 : x ≤ (hi : ℝ)) :
    (lo : ℝ) ≤ pythonRound2 x ∧ pythonRound2 x ≤ (hi : ℝ) := by
  unfold pythonRound2
  have hl : ((100 * lo : ℤ) : ℝ) ≤ 100 * x := by push_cast; linarith
  have hr : 100 * x ≤ ((100 * hi : ℤ) : ℝ) := by push_cast; linarith
  have hl2 := le_pythonRound_of_int_le hl
  have hr2 := pythonRound_le_of_le_int hr
  have hl3 : ((100 * lo : ℤ) : ℝ) ≤ (pythonRound (100 * x) : ℝ) := by exact_mod_cast hl2
  have hr3 : (pythonRound (100 * x) : ℝ) ≤ ((100 * hi : ℤ) : ℝ) := by exact_mod_cast hr2
  push_cast at hl3 hr3
  constructor <;> linarith

theorem prob_pct_round_bound (r : ℝ) :
    (15 : ℝ) ≤ pythonRound2 (max 0.15 (min 0.85 r) * 100) ∧
      pythonRound2 (max 0.15 (min 0.85 r) * 100) ≤ 85 := by
  have h1 : (0.15 : ℝ) ≤ max 0.15 (min 0.85 r) := le_max_left _ _
  have h2 : max (0.15 : ℝ) (min 0.85 r) ≤ 0.85 := max_le (by norm_num) (min_le_left _ _)
  have h := pythonRound2_mem_Icc 15 85
    (x := max 0.15 (min 0.85 r) * 100) (by push_cast; linarith) (by push_cast; linarith)
  constructor
  · have := h.1
    push_cast at this
    linarith
  · have := h.2
    push_cast at this
    linarith

theorem conf_round_bound (home away : Team) (p : ℝ) (comps : List ℝ) :
    (40 : ℝ) ≤ pythonRound2 (calculateConfidence home away p comps) ∧
      pythonRound2 (calculateConfidence home away p comps) ≤ 92 := by
  have h1 : (40 : ℝ) ≤ calculateConfidence home away p comps := le_max_left _ _
  have h2 : calculateConfidence home away p comps ≤ 92 :=
    max_le (by norm_num) (min_le_left _ _)
  have h := pythonRound2_mem_Icc 40 92
    (x := calculateConfidence home away p comps) (by push_cast; linarith) (by push_cast; linarith)
  constructor
  · have := h.1
    push_cast at this
    linarith
  · have := h.2
    push_cast at this
    linarith

theorem calculateSpread_bounds (home away : Team) (p : ℝ) (d : ℤ) (g : Option GameCtx) :
    (-16 : ℝ) ≤ calculateSpread home away p d g ∧ calculateSpread home away p d g ≤ 16 :=
  ⟨le_max_left _ _, max_le (by norm_num) (min_le_left _ _)⟩

theorem clampScore_sub_le {x y : ℤ} (h : x - y ≤ 16) :
    max 95 (min 130 x) - max 95 (min 130 y) ≤ 16 := by
  rw [max_def, max_def, min_def, min_def]
  split_ifs <;> omega

/-- Splitting a total around a spread in `[-16, 16]`, rounding both halves and
clamping them to `[95, 130]` yields a score difference still in `[-16, 16]`. -/
theorem rounded_pair_spread (half s : ℝ) (h1 : -16 ≤ s) (h2 : s ≤ 16) :
    -16 ≤ max 95 (min 130 (pythonRound (half + s / 2))) -
        max 95 (min 130 (pythonRound (half - s / 2))) ∧
      max 95 (min 130 (pythonRound (half + s / 2))) -
        max 95 (min 130 (pythonRound (half - s / 2))) ≤ 16 := by
  have ha : pythonRound (half + s / 2) - pythonRound (half - s / 2) ≤ 16 := by
    have h := pythonRound_sub_le (half + s / 2) (half - s / 2) 8 (by push_cast; linarith)
    omega
  have hb : pythonRound (half - s / 2) - pythonRound (half + s / 2) ≤ 16 := by
    have h := pythonRound_sub_le (half - s / 2) (half + s / 2) 8 (by push_cast; linarith)
    omega
  exact ⟨by have := clampScore_sub_le hb; omega, clampScore_sub_le ha⟩

theorem calculatePredictedScores_spread_bound (home away : Team) (s : ℝ) (g : Option GameCtx)
    (h1 : -16 ≤ s) (h2 : s ≤ 16) :
    -16 ≤ (calculatePredictedScores home away s g).2.2 ∧
      (calculatePredictedScores home away s g).2.2 ≤ 16 := by
  dsimp only [calculatePredictedScores]
  exact rounded_pair_spread _ s h1 h2

/-- Expected-score factor `1 - 1/(1 + 10^x)` lies in `[0, 1]`. -/
theorem expectedFactor_mem (x : ℝ) :
    0 ≤ 1 - 1 / (1 + (10 : ℝ) ^ x) ∧ 1 - 1 / (1 + (10 : ℝ) ^ x) ≤ 1 := by
  have h10 : (0 : ℝ) < (10 : ℝ) ^ x := Real.rpow_pos_of_pos (by norm_num) x
  constructor
  · have h : 1 / (1 + (10 : ℝ) ^ x) ≤ 1 := by
      rw [div_le_one (by linarith)]
      linarith
    linarith
  · have h : 0 < 1 / (1 + (10 : ℝ) ^ x) := by positivity
    linarith

/-- On bases `1 ≤ x ≤ 20` the tracker updater's multiplier clamps to `1`. -/
theorem commandMov_clamps_to_one {x : ℝ} (h1 : 1 ≤ x) (h2 : x ≤ 20) :
    min 2.5 (max 1.0 (x ^ (0.8 : ℝ) / 20)) = 1.0 := by
  have hx : x ^ (0.8 : ℝ) ≤ x := by
    calc x ^ (0.8 : ℝ) ≤ x ^ (1 : ℝ) :=
          Real.rpow_le_rpow_of_exponent_le h1 (by norm_num)
    _ = x := Real.rpow_one x
  have hd : x ^ (0.8 : ℝ) / 20 ≤ 1.0 := by
    have h0 : (0 : ℝ) ≤ x ^ (0.8 : ℝ) := Real.rpow_nonneg (by linarith) _
    rw [div_le_iff₀ (by norm_num : (0:ℝ) < 20)]
    norm_num
    linarith
  rw [max_eq_left hd, min_eq_right (by norm_num)]

/-- C4 counterexample.  For the Feature Builder's Elo updater
(`Command._update_elo`), with both ratings 1500 and a home winner, the deltas
at margins 1, 2 and 3 are all equal (the multiplier `(margin+3)^0.8 / 20`
clamps to 1.0 for every margin below 40), so the marginal increase per extra
point of margin is 0 and then 0 — it does not strictly decrease, refuting the
claim's "the marginal increase in delta per additional point of margin
strictly decreases" at this concrete input. -/
theorem C4_strict_diminishing_returns_counterexample :
    commandEloChange 1500 1500 true 2 - commandEloChange 1500 1500 true 1 = 0 ∧
    commandEloChange 1500 1500 true 3 - commandEloChange 1500 1500 true 2 = 0 ∧
    ¬(commandEloChange 1500 1500 true 3 - commandEloChange 1500 1500 true 2 <
        commandEloChange 1500 1500 true 2 - commandEloChange 1500 1500 true 1) := by
  have key : ∀ m : ℕ, 1 ≤ m → m ≤ 17 →
      commandEloChange 1500 1500 true m =
        20 * 1.0 * (1 - 1 / (1 + (10 : ℝ) ^ ((1500 - (1500 + 100) : ℝ) / 400))) := by
    intro m hm1 hm2
    have hc1 : (1 : ℝ) ≤ (m : ℝ) + 3 := by
      have : (1 : ℝ) ≤ (m : ℝ) := by exact_mod_cast hm1
      linarith
    have hc2 : (m : ℝ) + 3 ≤ 20 := by
      have : (m : ℝ) ≤ 17 := by exact_mod_cast hm2
      linarith
    dsimp only [commandEloChange]
    rw [if_pos rfl, if_pos rfl, commandMov_clamps_to_one hc1 hc2]
  rw [key 1 (by norm_num) (by norm_num), key 2 (by norm_num) (by norm_num),
    key 3 (by norm_num) (by norm_num)]
  norm_num

/-- C4 (amended).  What does hold of both updaters: (1) the tracker updater's
delta is monotone non-decreasing in the margin; (2) so is the predictor
updater's delta (for rating gaps above the −2100 degenerate pole of the
damping factor); (3) for a fixed margin, raising the winner's pre-game rating
weakly shrinks the margin multiplier; (4) the clamped multiplier never goes
below 1.0 — so widening the winner-favored gap moves the multiplier down
toward its floor 1.0.  Strictness of the diminishing returns fails only on the
clamped ranges (see the counterexample). -/
theorem C4_margin_and_gap_monotonicity_amended :
    (∀ (w l : ℝ) (ih : Bool) (m m' : ℕ), m ≤ m' →
        commandEloChange w l ih m ≤ commandEloChange w l ih m') ∧
    (∀ (winner loser : Team) (ih : Bool) (m m' : ℤ), m ≤ m' →
        -2100 < winner.elo_rating - loser.elo_rating →
        eloChangeAfterGame winner loser ih m ≤ eloChangeAfterGame winner loser ih m') ∧
    (∀ (we we' le : ℝ) (m : ℤ), we ≤ we' → -2200 < we - le →
        movMultiplier we' le m ≤ movMultiplier we le m) ∧
    (∀ (we le : ℝ) (m : ℤ), 1 ≤ movMultiplier we le m) := by
  have hmovfloor : ∀ (we le : ℝ) (m : ℤ), 1 ≤ movMultiplier we le m := by
    intro we le m
    dsimp only [movMultiplier]
    exact le_trans (by norm_num) (le_max_left _ _)
  have hmargin : ∀ (we le : ℝ) (m m' : ℤ), m ≤ m' → 0 < (we - le) * 0.001 + 2.2 →
      movMultiplier we le m ≤ movMultiplier we le m' := by
    intro we le m m' hm hden
    dsimp only [movMultiplier]
    have hdamp : 0 ≤ 2.2 / ((we - le) * 0.001 + 2.2) := by positivity
    have hlog : Real.log (max (m : ℝ) 1 + 1) ≤ Real.log (max (m' : ℝ) 1 + 1) := by
      apply Real.log_le_log (by positivity)
      have : (m : ℝ) ≤ (m' : ℝ) := by exact_mod_cast hm
      have := max_le_max this (le_refl (1 : ℝ))
      linarith
    exact max_le_max (le_refl _)
      (min_le_min (mul_le_mul_of_nonneg_right hlog hdamp) (le_refl _))
  refine ⟨?_, ?_, ?_, hmovfloor⟩
  · -- tracker updater, monotone in margin
    intro w l ih m m' hm
    dsimp only [commandEloChange]
    apply mul_le_mul_of_nonneg_right _ (expectedFactor_mem _).1
    apply mul_le_mul_of_nonneg_left _ (by norm_num)
    apply min_le_min (le_refl _)
    apply max_le_max (le_refl _)
    rw [div_le_div_iff_of_pos_right (by norm_num : (0:ℝ) < 20)]
    apply Real.rpow_le_rpow (by positivity) _ (by norm_num)
    have : (m : ℝ) ≤ (m' : ℝ) := by exact_mod_cast hm
    linarith
  · -- predictor updater, monotone in margin
    intro winner loser ih m m' hm hgap
    dsimp only [eloChangeAfterGame]
    apply mul_le_mul_of_nonneg_right _ (expectedFactor_mem _).1
    apply mul_le_mul_of_nonneg_left _ (by norm_num)
    apply hmargin _ _ _ _ hm
    cases ih <;> simp only [Bool.false_eq_true, if_false, if_true] <;> nlinarith
  · -- multiplier shrinks as the winner-favored gap widens
    intro we we' le m hw hgap
    dsimp only [movMultiplier]
    have hd : (0 : ℝ) < (we - le) * 0.001 + 2.2 := by nlinarith
    have hd' : (0 : ℝ) < (we' - le) * 0.001 + 2.2 := by nlinarith
    have hdamp : 2.2 / ((we' - le) * 0.001 + 2.2) ≤ 2.2 / ((we - le) * 0.001 + 2.2) := by
      apply div_le_div_of_nonneg_left (by norm_num) hd
      nlinarith
    have hlog : 0 ≤ Real.log (max (m : ℝ) 1 + 1) := by
      apply Real.log_nonneg
      have := le_max_right (m : ℝ) 1
      linarith
    exact max_le_max (le_refl _)
      (min_le_min (mul_le_mul_of_nonneg_left hdamp hlog) (le_refl _))

/-- Witness for C4 (amended): concrete instances — tracker delta at margin 2
is at most the delta at margin 5; predictor delta likewise for the demo
matchup (gap 100 > −2100); the multiplier at winner rating 1700 is at most the
one at 1600 (gap 100 > −2200); and the multiplier is at least 1. -/
theorem C4_margin_and_gap_monotonicity_witness :
    (2 : ℕ) ≤ 5 ∧ (-2100 : ℝ) < demoTeamA.elo_rating - demoTeamB.elo_rating ∧
    (1600 : ℝ) ≤ 1700 ∧ (-2200 : ℝ) < (1600 : ℝ) - 1500 ∧
    commandEloChange 1500 1500 true 2 ≤ commandEloChange 1500 1500 true 5 ∧
    eloChangeAfterGame demoTeamA demoTeamB true 2 ≤ eloChangeAfterGame demoTeamA demoTeamB true 5 ∧
    movMultiplier 1700 1500 3 ≤ movMultiplier 1600 1500 3 ∧
    (1 : ℝ) ≤ movMultiplier 1600 1500 3 := by
  have hgap : (-2100 : ℝ) < demoTeamA.elo_rating - demoTeamB.elo_rating := by
    simp only [demoTeamA, demoTeamB]
    norm_num
  exact ⟨by norm_num, hgap, by norm_num, by norm_num,
    C4_margin_and_gap_monotonicity_amended.1 1500 1500 true 2 5 (by norm_num),
    C4_margin_and_gap_monotonicity_amended.2.1 demoTeamA demoTeamB true 2 5 (by norm_num) hgap,
    C4_margin_and_gap_monotonicity_amended.2.2.1 1600 1700 1500 3 (by norm_num) (by norm_num),
    C4_margin_and_gap_monotonicity_amended.2.2.2 1600 1500 3⟩

/-- C5.  The Heuristic Model's outputs always satisfy the documented bounds:
probability reported as a percentage in `[15, 85]`, confidence in `[40, 92]`,
and the recomputed rounded-score spread in `[-16, 16]`. -/
theorem C5_heuristic_output_bounds (home away : Team) (game_date : ℤ) (game : Option GameCtx) :
    (15 : ℝ) ≤ (nbaPredictGame home away game_date game).prob ∧
      (nbaPredictGame home away game_date game).prob ≤ 85 ∧
      (40 : ℝ) ≤ (nbaPredictGame home away game_date game).conf ∧
      (nbaPredictGame home away game_date game).conf ≤ 92 ∧
      (-16 : ℝ) ≤ (nbaPredictGame home away game_date game).spread ∧
      (nbaPredictGame home away game_date game).spread ≤ 16 := by
  have hs := fun (p : ℝ) =>
    calculatePredictedScores_spread_bound home away
      (calculateSpread home away p game_date game) game
      (calculateSpread_bounds home away p game_date game).1
      (calculateSpread_bounds home away p game_date game).2
  refine ⟨(prob_pct_round_bound _).1, (prob_pct_round_bound _).2,
    (conf_round_bound home away _ _).1, (conf_round_bound home away _ _).2, ?_, ?_⟩
  · change (-16 : ℝ) ≤
      ((calculatePredictedScores home away (calculateSpread home away _ game_date game) game).2.2 : ℝ)
    exact_mod_cast (hs _).1
  · change ((calculatePredictedScores home away
      (calculateSpread home away _ game_date game) game).2.2 : ℝ) ≤ 16
    exact_mod_cast (hs _).2

/-- C6.  Both prediction models report a spread that is recomputed from the
rounded, clamped score pair, so the reported spread equals
`predicted_home_score - predicted_away_score` exactly. -/
theorem C6_spread_equals_score_difference :
    (∀ (home away : Team) (game_date : ℤ) (game : Option GameCtx),
      (nbaPredictGame home away game_date game).spread =
        ((nbaPredictGame home away game_date game).homeScore : ℝ) -
          ((nbaPredictGame home away game_date game).awayScore : ℝ)) ∧
    (∀ raw : MLRaw,
      (mlPredictCore raw).spread =
        ((mlPredictCore raw).homeScore : ℝ) - ((mlPredictCore raw).awayScore : ℝ)) := by
  constructor
  · intro home away game_date game
    have h : ∀ (home away : Team) (s : ℝ) (g : Option GameCtx),
        (calculatePredictedScores home away s g).2.2 =
          (calculatePredictedScores home away s g).1 -
            (calculatePredictedScores home away s g).2.1 := fun _ _ _ _ => rfl
    show ((calculatePredictedScores home away _ game).2.2 : ℝ) = _
    rw [h]
    push_cast
    rfl
  · intro raw
    show (((mlPredictCore raw).homeScore - (mlPredictCore raw).awayScore : ℤ) : ℝ) = _
    push_cast
    rfl

/-- C8.  Whenever the Learned Model is unavailable (`joblib` missing, artifact
bundle missing or corrupt, feature preparation failing, or any exception on the
ML path — all modelled by the `none` outcome), the top-level `predict_game`
returns exactly the Heuristic Model's 5-tuple: same shape, heuristic values,
and no exception escapes. -/
theorem C8_ml_unavailable_falls_back_to_heuristic (use_ml : Bool) (home away : Team)
    (game_date : ℤ) (game : Option GameCtx) :
    predictGameTop use_ml none home away game_date game =
      nbaPredictGame home away game_date game := by
  cases use_ml <;> rfl

/-- C3.  Elo zero-sum.  First conjunct: the pipeline's updater
(`Command._update_elo`) applies `+elo_change` to the winner and `-elo_change`
to the loser with no rounding, so the applied deltas are exact negations and
the rating sum is exactly preserved, for all inputs.  Second conjunct: the
predictor's updater (`update_elo_after_game`) rounds each new rating to one
decimal; starting from ratings on the stored tenth grid (the
`DecimalField(decimal_places=1)` invariant), the per-team round-half-to-even
roundings cancel and the sum is still exactly preserved whenever the scaled
update does not land exactly on a rounding half-tie (the half-tie never arises
from the update formula: the clamped multiplier cases give values with odd
denominator, the unclamped cases irrational ones, and the code's binary floats
are dyadic and so never equal a half-tenth). -/
theorem C3_elo_update_zero_sum :
    (∀ (wt lt : TeamTracker) (winnerIsHome : Bool) (margin : ℕ),
      ((commandUpdateElo wt lt winnerIsHome margin).2.1.elo - wt.elo =
          -((commandUpdateElo wt lt winnerIsHome margin).2.2.elo - lt.elo)) ∧
      (commandUpdateElo wt lt winnerIsHome margin).2.1.elo +
          (commandUpdateElo wt lt winnerIsHome margin).2.2.elo = wt.elo + lt.elo) ∧
    (∀ (winner loser : Team) (winnerIsHome : Bool) (margin : ℤ),
      (∃ n : ℤ, winner.elo_rating = n / 10) → (∃ n : ℤ, loser.elo_rating = n / 10) →
      Int.fract (10 * (winner.elo_rating +
        eloChangeAfterGame winner loser winnerIsHome margin)) ≠ 1/2 →
      (updateEloAfterGame winner loser winnerIsHome margin).2.1.elo_rating +
        (updateEloAfterGame winner loser winnerIsHome margin).2.2.elo_rating =
        winner.elo_rating + loser.elo_rating) := by
  constructor
  · intro wt lt winnerIsHome margin
    dsimp only [commandUpdateElo]
    constructor <;> ring
  · rintro winner loser winnerIsHome margin ⟨W, hW⟩ ⟨L, hL⟩ htie
    dsimp only [updateEloAfterGame]
    have hx : 10 * (loser.elo_rating - eloChangeAfterGame winner loser winnerIsHome margin) =
        ((W + L : ℤ) : ℝ) -
          10 * (winner.elo_rating + eloChangeAfterGame winner loser winnerIsHome margin) := by
      rw [hW, hL]
      push_cast
      ring
    rw [hx]
    have h := pythonRound_add_complement (W + L)
      (10 * (winner.elo_rating + eloChangeAfterGame winner loser winnerIsHome margin)) htie
    have h2 : ((pythonRound (10 * (winner.elo_rating +
          eloChangeAfterGame winner loser winnerIsHome margin)) : ℤ) : ℝ) +
        ((pythonRound (((W + L : ℤ) : ℝ) - 10 * (winner.elo_rating +
          eloChangeAfterGame winner loser winnerIsHome margin)) : ℤ) : ℝ) =
        ((W + L : ℤ) : ℝ) := by
      exact_mod_cast congrArg (fun z : ℤ => (z : ℝ)) h
    have hsum : winner.elo_rating + loser.elo_rating = ((W : ℝ) + L) / 10 := by
      rw [hW, hL]
      ring
    push_cast at h2 ⊢
    rw [hsum]
    linarith

/-- Witness for C3: a 100-point road favorite winning by one point gives an
exact elo change of 10.0 (the multiplier clamps to 1 and the expected score is
exactly 1/2), so both hypotheses are concrete and the rounded ratings
1610.0 / 1490.0 sum back to 1600 + 1500. -/
theorem C3_elo_update_zero_sum_witness :
    (∃ n : ℤ, demoTeamA.elo_rating = n / 10) ∧
    (∃ n : ℤ, demoTeamB.elo_rating = n / 10) ∧
    Int.fract (10 * (demoTeamA.elo_rating + eloChangeAfterGame demoTeamA demoTeamB false 1)) ≠
      1/2 ∧
    (updateEloAfterGame demoTeamA demoTeamB false 1).2.1.elo_rating +
      (updateEloAfterGame demoTeamA demoTeamB false 1).2.2.elo_rating =
      demoTeamA.elo_rating + demoTeamB.elo_rating := by
  have hlog1 : Real.log 2 ≤ 1 := le_of_lt (lt_trans Real.log_two_lt_d9 (by norm_num))
  have hlog2 : Real.log 2 ≤ 2.5 := le_of_lt (lt_trans Real.log_two_lt_d9 (by norm_num))
  have hΔ : eloChangeAfterGame demoTeamA demoTeamB false 1 = 10 := by
    unfold eloChangeAfterGame movMultiplier
    simp only [demoTeamA, demoTeamB, Bool.false_eq_true, if_false]
    rw [show ((1500 : ℝ) + 100 - 1600) / 400 = 0 by norm_num, Real.rpow_zero]
    rw [show (max ((1 : ℤ) : ℝ) 1 + 1) = 2 by norm_num]
    rw [show (2.2 : ℝ) / ((1600 - (1500 + 100)) * 1e-3 + 2.2) = 1 by norm_num]
    rw [mul_one, min_eq_left hlog2, max_eq_left (show Real.log 2 ≤ (1.0 : ℝ) by linarith)]
    norm_num
  have htie : Int.fract (10 * (demoTeamA.elo_rating +
      eloChangeAfterGame demoTeamA demoTeamB false 1)) ≠ 1/2 := by
    rw [hΔ, show (10 : ℝ) * (demoTeamA.elo_rating + 10) = ((16100 : ℤ) : ℝ) by
      simp only [demoTeamA]
      norm_num]
    rw [Int.fract_intCast]
    norm_num
  exact ⟨⟨16000, by simp only [demoTeamA]; norm_num⟩,
    ⟨15000, by simp only [demoTeamB]; norm_num⟩, htie,
    C3_elo_update_zero_sum.2 demoTeamA demoTeamB false 1
      ⟨16000, by simp only [demoTeamA]; norm_num⟩
      ⟨15000, by simp only [demoTeamB]; norm_num⟩ htie⟩

/-- C7 counterexample.  `TeamTracker.rest_days` has no upper cap: with a last
game 10 days before the query date it returns 10, not the claimed cap of 7
(the cap exists only in `NBAPredictor._calc_rest_days`). -/
theorem C7_rest_days_cap_counterexample :
    TeamTracker.restDays { initTracker with last_game_date := some 0 } 10 = 10 ∧
    ¬(TeamTracker.restDays { initTracker with last_game_date := some 0 } 10 ≤ 7) := by
  constructor <;> decide

/-- C7 (amended).  All the claimed neutral defaults hold and no query can fail:
win percentage 1/2 at zero games, rest days defaulting to 3 and floored at 1,
strength of schedule 1/2 with no opponents, both trends 0 below five games, and
the predictor's `_calc_rest_days` floored at 1, capped at 7, defaulting to 3 —
but the tracker's `rest_days` itself is only floored at 1, with the 7-day cap
applied solely by `_calc_rest_days` (see the counterexample). -/
theorem C7_default_neutrality_amended :
    (∀ t : TeamTracker, t.gamesPlayed = 0 → t.winPct = 1/2) ∧
    (∀ (t : TeamTracker) (d : ℤ), t.last_game_date = none → t.restDays d = 3) ∧
    (∀ (t : TeamTracker) (d : ℤ), 1 ≤ t.restDays d) ∧
    (∀ t : TeamTracker, t.opponents = [] → t.strengthOfSchedule = 1/2) ∧
    (∀ t : TeamTracker, t.recent_scores.length < 5 → t.pointsTrend = 0) ∧
    (∀ t : TeamTracker, t.recent_allowed.length < 5 → t.defenseTrend = 0) ∧
    (∀ (tm : Team) (d : ℤ), tm.last_game_date = none → calcRestDays tm d = 3) ∧
    (∀ (tm : Team) (d : ℤ), 1 ≤ calcRestDays tm d ∧ calcRestDays tm d ≤ 7) := by
  refine ⟨?_, ?_, ?_, ?_, ?_, ?_, ?_, ?_⟩
  · intro t h
    unfold TeamTracker.winPct
    rw [if_pos h]
  · intro t d h
    unfold TeamTracker.restDays
    rw [h]
  · intro t d
    unfold TeamTracker.restDays
    cases h : t.last_game_date with
    | none => norm_num
    | some last => exact le_max_left _ _
  · intro t h
    unfold TeamTracker.strengthOfSchedule
    rw [if_pos h]
  · intro t h
    unfold TeamTracker.pointsTrend
    rw [if_pos h]
  · intro t h
    unfold TeamTracker.defenseTrend
    rw [if_pos h]
  · intro tm d h
    unfold calcRestDays
    rw [h]
  · intro tm d
    unfold calcRestDays
    cases h : tm.last_game_date with
    | none => norm_num
    | some last =>
        exact ⟨le_max_left _ _, max_le (by norm_num) (min_le_right _ _)⟩

/-- Witness for C7 (amended): the fresh tracker and the demo teams realise
every hypothesis concretely. -/
theorem C7_default_neutrality_witness :
    initTracker.gamesPlayed = 0 ∧ initTracker.winPct = 1/2 ∧
    initTracker.last_game_date = none ∧ initTracker.restDays 5 = 3 ∧
    (1 : ℤ) ≤ initTracker.restDays 5 ∧
    initTracker.opponents = [] ∧ initTracker.strengthOfSchedule = 1/2 ∧
    initTracker.recent_scores.length < 5 ∧ initTracker.pointsTrend = 0 ∧
    initTracker.defenseTrend = 0 ∧
    demoTeamB.last_game_date = none ∧ calcRestDays demoTeamB 5 = 3 ∧
    (1 ≤ calcRestDays demoTeamA 5 ∧ calcRestDays demoTeamA 5 ≤ 7) :=
  ⟨rfl, C7_default_neutrality_amended.1 initTracker rfl, rfl,
   C7_default_neutrality_amended.2.1 initTracker 5 rfl,
   C7_default_neutrality_amended.2.2.1 initTracker 5, rfl,
   C7_default_neutrality_amended.2.2.2.1 initTracker rfl, by decide,
   C7_default_neutrality_amended.2.2.2.2.1 initTracker (by decide),
   C7_default_neutrality_amended.2.2.2.2.2.1 initTracker (by decide), rfl,
   C7_default_neutrality_amended.2.2.2.2.2.2.1 demoTeamB 5 rfl,
   C7_default_neutrality_amended.2.2.2.2.2.2.2 demoTeamA 5⟩

/-- C9 counterexample.  The training vector and the inference vector do not
carry the same component meanings at position 17 (index 16): for the same
underlying pre-game facts — home team 2–2 overall with a 2–0 home record
(`hgDemo` is the row `fetch_historical_data` stores for that history,
`mlTeamHome`/`mlTeamAway`/`mlGameDemo` the live rows `_prepare_features`
reads) — training computes the home-record-at-home win fraction 2/2 = 1 while
inference substitutes the overall win percentage 2/4 = 0.5, so the two
vectors differ. -/
theorem C9_feature_semantics_counterexample :
    (trainFeatures hgDemo)[16]? = some 1 ∧
    (inferFeatures mlTeamHome mlTeamAway (some mlGameDemo))[16]? = some (1/2) ∧
    trainFeatures hgDemo ≠ inferFeatures mlTeamHome mlTeamAway (some mlGameDemo) := by
  have h1 : (trainFeatures hgDemo)[16]? = some 1 := by
    norm_num [trainFeatures, hgDemo]
  have h2 : (inferFeatures mlTeamHome mlTeamAway (some mlGameDemo))[16]? = some (1/2) := by
    norm_num [inferFeatures, mlTeamHome, mlTeamAway, mlGameDemo]
  refine ⟨h1, h2, fun heq => ?_⟩
  rw [heq, h2] at h1
  norm_num at h1

/-- C9 (amended).  Both vectors are fixed 21-dimensional with the listed
order, and the inference vector equals the training vector computed on the
proxy row `_prepare_features` actually uses: season-to-date scoring averages
in place of the trailing-10 figures and each team's overall win percentage in
place of the home-at-home / away-on-road record (positions 17–18; see the
counterexample), with rest days and head-to-head taken from the snapshot. -/
theorem C9_feature_vector_amended :
    (∀ g : HistoricalGameRow, (trainFeatures g).length = 21) ∧
    (∀ (home away : Team) (game : Option GameCtx), (inferFeatures home away game).length = 21) ∧
    (∀ (home away : Team) (game : Option GameCtx),
      inferFeatures home away game = trainFeatures (proxyRow home away game)) := by
  have hpy : ∀ x : ℝ, pyOptOrReal (some (pyOrReal x 110)) 110 = pyOrReal x 110 := by
    intro x
    by_cases hx : x = 0 <;> norm_num [pyOptOrReal, pyOrReal, hx]
  have hrec : ∀ w l : ℕ,
      (((if w + l = 0 then 1 else w) : ℕ) : ℝ) /
        ((max ((if w + l = 0 then 1 else w) + (if w + l = 0 then 1 else l)) 1 : ℕ) : ℝ) =
        (if 0 < w + l then (w : ℝ) / ((w + l : ℕ) : ℝ) else 0.5) := by
    intro w l
    rcases Nat.eq_zero_or_pos (w + l) with h | h
    · simp [h]
      norm_num
    · have hne : ¬(w + l = 0) := by omega
      rw [if_neg hne, if_neg hne, if_pos h, show max (w + l) 1 = w + l by omega]
  refine ⟨fun g => rfl, fun home away game => by cases game <;> rfl, ?_⟩
  intro home away game
  cases game with
  | none =>
      dsimp only [inferFeatures, trainFeatures, proxyRow]
      rw [hpy, hpy, hrec home.wins home.losses, hrec away.wins away.losses]
      norm_num
  | some gg =>
      dsimp only [inferFeatures, trainFeatures, proxyRow]
      rw [hpy, hpy, hrec home.wins home.losses, hrec away.wins away.losses]
      rcases Nat.eq_zero_or_pos (gg.h2h_home_wins + gg.h2h_away_wins) with h | h
      · norm_num [h]
      · rw [if_pos h, if_pos h,
          show max (gg.h2h_home_wins + gg.h2h_away_wins) 1 =
            gg.h2h_home_wins + gg.h2h_away_wins by omega]

/-- C10.  Frame property of the prediction engine: `update_elo_after_game`
rewrites exactly the two teams' `elo_rating` fields (the `{· with elo_rating
:= ·}` form carries every other field over unchanged) and returns the
unrounded change, while the heuristic prediction path performs no attribute
assignment at all, so in state-passing form it returns both team rows and the
snapshot unchanged. -/
theorem C10_predictor_frame_properties :
    (∀ (winner loser : Team) (winnerIsHome : Bool) (margin : ℤ),
      updateEloAfterGame winner loser winnerIsHome margin =
        (eloChangeAfterGame winner loser winnerIsHome margin,
         { winner with elo_rating :=
            (pythonRound (10 * (winner.elo_rating +
              eloChangeAfterGame winner loser winnerIsHome margin)) : ℝ) / 10 },
         { loser with elo_rating :=
            (pythonRound (10 * (loser.elo_rating -
              eloChangeAfterGame winner loser winnerIsHome margin)) : ℝ) / 10 })) ∧
    (∀ (home away : Team) (game_date : ℤ) (game : Option GameCtx),
      (nbaPredictGameS home away game_date game).2 = (home, away, game)) :=
  ⟨fun _ _ _ _ => rfl, fun _ _ _ _ => rfl⟩

end CourtVision

